/-
Verification of the book-recommendation engine (src/app.py).

The embedding models the persistent store (books, users, ratings) as plain
lists, mirroring the SQLAlchemy tables, and translates the three core
operations:

  * `calculate_similarity` (app.py lines 82-103): Pearson correlation between
    two users' rating maps, with a minimum-support threshold of 3 common books
    and a guarded division.
  * `get_user_preferred_genres` (app.py lines 105-124): per-genre average and
    count over the user's ratings joined with books, ranked by
    `avg_rating * min(count, 5)` descending (Python `sorted` is stable;
    we model it with a stable insertion sort).
  * `recommend_books` (app.py lines 218-277): content-based candidates,
    collaborative candidates from a similarity neighbourhood, merge and
    deduplicate, and a global popularity fallback.

Numeric modelling: scores are integers; SQL averages and the Pearson
intermediate values are exact rationals; the final Pearson value (which takes
a square root) lives in ℝ.  The float comparison `similarity > 0.3` in the
source is modelled by an exact rational test `similarity_gt_threshold`,
proved equivalent to `3/10 < pearson` in `similarity_gt_threshold_iff`.
`ORDER BY random()` on the content path is modelled as catalog order; none of
the verified properties depend on which matching books the random order
selects.
-/
import Mathlib

deriving instance DecidableEq for Except

namespace BookRec

/-- Book row (app.py lines 41-54); only the fields the core reads. -/
structure Book where
  id : Nat
  title : String
  author : String
  genre : String
deriving DecidableEq, Repr

/-- Rating row (app.py lines 67-79). -/
structure Rating where
  user_id : Nat
  book_id : Nat
  score : ℤ
deriving DecidableEq, Repr

/-- A snapshot of the database: the three tables. -/
structure Store where
  books : List Book
  users : List Nat
  ratings : List Rating
deriving Repr

/-- Database integrity constraints the schema enforces: foreign keys of each
rating exist, at most one rating per (user, book) pair
(`unique_user_book_rating`, app.py line 78), and primary-key uniqueness of
book ids. -/
def StoreWF (s : Store) : Prop :=
  (∀ r ∈ s.ratings, r.user_id ∈ s.users ∧ ∃ b ∈ s.books, b.id = r.book_id) ∧
  (s.ratings.map (fun r => (r.user_id, r.book_id))).Nodup ∧
  (s.books.map Book.id).Nodup

instance (s : Store) : Decidable (StoreWF s) := by
  unfold StoreWF; infer_instance

/-- A user's rating map `{r.book_id: r.score for r in ...}`
(app.py lines 84-85): the set of rated book ids together with the score
function. -/
structure RatingMap where
  books : Finset Nat
  score : Nat → ℤ

/-- The rows `Rating.query.filter_by(user_id=u)` as (book id, score) pairs. -/
def userRatingsList (s : Store) (u : Nat) : List (Nat × ℤ) :=
  (s.ratings.filter (fun r => r.user_id = u)).map (fun r => (r.book_id, r.score))

/-- Build the rating map of user `u` from the store (app.py lines 84-85).
Under `StoreWF` each book id occurs at most once, so `lookup` is the dict. -/
def ratingMapOf (s : Store) (u : Nat) : RatingMap where
  books := ((userRatingsList s u).map Prod.fst).toFinset
  score := fun b => ((userRatingsList s u).lookup b).getD 0

/-- The set `common_books = set(user1_ratings) & set(user2_ratings)` (app.py line 87). -/
def commonBooks (m1 m2 : RatingMap) : Finset Nat := m1.books ∩ m2.books

/-- The sum `sum1` (app.py line 94). -/
def sum1Z (m1 m2 : RatingMap) : ℤ := ∑ b ∈ commonBooks m1 m2, m1.score b

/-- The sum `sum2` (app.py line 95). -/
def sum2Z (m1 m2 : RatingMap) : ℤ := ∑ b ∈ commonBooks m1 m2, m2.score b

/-- The sum `sum1_sq` (app.py line 96). -/
def sumSq1Z (m1 m2 : RatingMap) : ℤ := ∑ b ∈ commonBooks m1 m2, (m1.score b) ^ 2

/-- The sum `sum2_sq` (app.py line 97). -/
def sumSq2Z (m1 m2 : RatingMap) : ℤ := ∑ b ∈ commonBooks m1 m2, (m2.score b) ^ 2

/-- The sum `p_sum` (app.py line 98). -/
def pSumZ (m1 m2 : RatingMap) : ℤ := ∑ b ∈ commonBooks m1 m2, m1.score b * m2.score b

/-- The numerator `num = p_sum - (sum1 * sum2 / n)` (app.py line 100), exact. -/
def pearsonNumQ (m1 m2 : RatingMap) : ℚ :=
  (pSumZ m1 m2 : ℚ) - (sum1Z m1 m2 : ℚ) * (sum2Z m1 m2 : ℚ) / ((commonBooks m1 m2).card : ℚ)

/-- First factor under the square root, `sum1_sq - pow(sum1, 2)/n`
(app.py line 101), exact. -/
def pearsonVar1Q (m1 m2 : RatingMap) : ℚ :=
  (sumSq1Z m1 m2 : ℚ) - (sum1Z m1 m2 : ℚ) ^ 2 / ((commonBooks m1 m2).card : ℚ)

/-- Second factor under the square root, `sum2_sq - pow(sum2, 2)/n`
(app.py line 101), exact. -/
def pearsonVar2Q (m1 m2 : RatingMap) : ℚ :=
  (sumSq2Z m1 m2 : ℚ) - (sum2Z m1 m2 : ℚ) ^ 2 / ((commonBooks m1 m2).card : ℚ)

/-- The denominator `den = (... * ...) ** 0.5` (app.py line 101). -/
noncomputable def pearsonDen (m1 m2 : RatingMap) : ℝ :=
  Real.sqrt ((pearsonVar1Q m1 m2 * pearsonVar2Q m1 m2 : ℚ) : ℝ)

/-- Pearson similarity of two rating maps: app.py lines 87-103.
`if n < 3: return 0`, then `num / den if den != 0 else 0`. -/
noncomputable def pearson (m1 m2 : RatingMap) : ℝ :=
  if (commonBooks m1 m2).card < 3 then 0
  else if pearsonDen m1 m2 ≠ 0 then
    ((pearsonNumQ m1 m2 : ℚ) : ℝ) / pearsonDen m1 m2
  else 0

/-- The operation `calculate_similarity(user1_id, user2_id)` (app.py lines 82-103): fetch
the two rating maps from the store and apply the Pearson computation.  Note
the source performs no existence check on either user id. -/
noncomputable def calculate_similarity (s : Store) (u1 u2 : Nat) : ℝ :=
  pearson (ratingMapOf s u1) (ratingMapOf s u2)

/-! ### A stable sort, modelling Python `sorted` / SQL `ORDER BY` -/

/-- Insert `x` into `l`, before the first element `y` with `¬ le x y`.
With `le x y` meaning "x may come before y", equal elements keep their
relative order, so the resulting sort is stable like Python `sorted`. -/
def insertIn (le : α → α → Bool) (x : α) : List α → List α
  | [] => [x]
  | y :: ys => if le x y then x :: y :: ys else y :: insertIn le x ys

/-- Stable insertion sort by the relation `le` ("may come before"). -/
def sortBy (le : α → α → Bool) (l : List α) : List α :=
  l.foldr (insertIn le) []

theorem insertIn_cons (le : α → α → Bool) (x y : α) (ys : List α) :
    insertIn le x (y :: ys) =
      if le x y then x :: y :: ys else y :: insertIn le x ys := rfl

theorem insertIn_perm (le : α → α → Bool) (x : α) (l : List α) :
    (insertIn le x l).Perm (x :: l) := by
  induction l with
  | nil => simp [insertIn]
  | cons y ys ih =>
    rw [insertIn_cons]
    by_cases h : le x y = true
    · rw [if_pos h]
    · rw [if_neg h]
      exact ((ih.cons y).trans (List.Perm.swap x y ys))

theorem sortBy_perm (le : α → α → Bool) (l : List α) : (sortBy le l).Perm l := by
  induction l with
  | nil => simp [sortBy]
  | cons y ys ih =>
    have : sortBy le (y :: ys) = insertIn le y (sortBy le ys) := rfl
    rw [this]
    exact (insertIn_perm le y (sortBy le ys)).trans (ih.cons y)

theorem insertIn_sorted (le : α → α → Bool)
    (htrans : ∀ a b c, le a b = true → le b c = true → le a c = true)
    (htot : ∀ a b, le a b = true ∨ le b a = true) (x : α) (l : List α)
    (hl : l.Pairwise (fun a b => le a b = true)) :
    (insertIn le x l).Pairwise (fun a b => le a b = true) := by
  induction l with
  | nil => simp [insertIn]
  | cons y ys ih =>
    rcases List.pairwise_cons.mp hl with ⟨hy, hys⟩
    rw [insertIn_cons]
    by_cases h : le x y = true
    · rw [if_pos h]
      refine List.pairwise_cons.mpr ⟨?_, hl⟩
      intro b hb
      rcases List.mem_cons.mp hb with hb | hb
      · exact hb ▸ h
      · exact htrans x y b h (hy b hb)
    · rw [if_neg h]
      refine List.pairwise_cons.mpr ⟨?_, ih hys⟩
      intro b hb
      have hb2 := List.mem_cons.mp ((insertIn_perm le x ys).mem_iff.mp hb)
      rcases hb2 with hb2 | hb2
      · subst hb2
        rcases htot y b with hyb | hby
        · exact hyb
        · exact absurd hby (by simpa using h)
      · exact hy b hb2

theorem sortBy_sorted (le : α → α → Bool)
    (htrans : ∀ a b c, le a b = true → le b c = true → le a c = true)
    (htot : ∀ a b, le a b = true ∨ le b a = true) (l : List α) :
    (sortBy le l).Pairwise (fun a b => le a b = true) := by
  induction l with
  | nil => simp [sortBy]
  | cons y ys ih => exact insertIn_sorted le htrans htot y (sortBy le ys) ih

theorem sortBy_eq_nil_iff (le : α → α → Bool) (l : List α) :
    sortBy le l = [] ↔ l = [] := by
  constructor
  · intro h
    have hp := sortBy_perm le l
    rw [h] at hp
    exact (List.Perm.nil_eq hp).symm
  · intro h; subst h; rfl

/-! ### Genre Preference Aggregator (app.py lines 105-124) -/

/-- One row of the grouped `genre_scores` query: genre, `avg(Rating.score)`,
`count(Rating.id)` (app.py lines 107-113). -/
structure GenreScore where
  genre : String
  avg_rating : ℚ
  count : ℕ
deriving DecidableEq, Repr

/-- The user's ratings inner-joined with books, projected to
(genre, score) rows (the `.join(Rating).filter(Rating.user_id == u)` part of
app.py lines 107-113).  A rating whose book id is absent from the catalog
produces no row, as in an inner join. -/
def userGenreScorePairs (s : Store) (u : Nat) : List (String × ℤ) :=
  (s.ratings.filter (fun r => r.user_id = u)).filterMap
    (fun r => (s.books.find? (fun b => b.id = r.book_id)).map
      (fun b => (b.genre, r.score)))

/-- Grouped `group_by(Book.genre)` aggregation (app.py lines 107-113): one row per
distinct genre with the exact average score and the row count. -/
def genre_scores (s : Store) (u : Nat) : List GenreScore :=
  let pairs := userGenreScorePairs s u
  ((pairs.map Prod.fst).dedup).map (fun g =>
    let scores := (pairs.filter (fun p => p.1 = g)).map Prod.snd
    { genre := g
      avg_rating := (scores.sum : ℚ) / (scores.length : ℚ)
      count := scores.length })

/-- The sort key `x.avg_rating * min(x.count, 5)` (app.py line 121). -/
def genreSortKey (gs : GenreScore) : ℚ := gs.avg_rating * ((min gs.count 5 : ℕ) : ℚ)

/-- The call `sorted(genre_scores, key=..., reverse=True)` (app.py lines 119-123):
stable descending sort by `genreSortKey`. -/
def preferredSorted (s : Store) (u : Nat) : List GenreScore :=
  sortBy (fun a b => decide (genreSortKey b ≤ genreSortKey a)) (genre_scores s u)

/-- The operation `get_user_preferred_genres(user_id, top_n=2)` (app.py lines 105-124):
returns `none` (Python `None`) when the grouped query is empty, otherwise the
first `top_n` genre names of the descending sort. -/
def get_user_preferred_genres (s : Store) (u : Nat) (top_n : ℕ) : Option (List String) :=
  if genre_scores s u = [] then none
  else some (((preferredSorted s u).take top_n).map GenreScore.genre)

/-! ### Recommendation Composer (app.py lines 218-277) -/

/-- The set `user_rated_books = {r.book_id for r in user.ratings}` (app.py line 227). -/
def userRatedBooks (s : Store) (u : Nat) : Finset Nat :=
  ((s.ratings.filter (fun r => r.user_id = u)).map Rating.book_id).toFinset

/-- Content-based candidates (app.py lines 229-235): books in a preferred
genre not yet rated by the user, capped at 5.  The Python truthiness test
`if preferred_genres:` treats both `None` and an empty list as no signal.
`ORDER BY random()` is modelled as catalog order. -/
def contentRecs (s : Store) (u : Nat) : List Book :=
  match get_user_preferred_genres s u 2 with
  | none => []
  | some [] => []
  | some pg =>
    (s.books.filter (fun b =>
      decide (b.genre ∈ pg) && decide (b.id ∉ userRatedBooks s u))).take 5

/-- Exact-rational decision procedure for `similarity > 0.3` (app.py
line 243).  Since the similarity is `num / sqrt(v1 * v2)` when defined and
`0` otherwise, it exceeds `3/10` iff at least 3 common books exist, the
variance product is nonzero, the numerator is positive, and
`100 * num^2 > 9 * v1 * v2`.  `similarity_gt_threshold_iff` proves this
equivalent to the real-valued comparison. -/
def similarity_gt_threshold (m1 m2 : RatingMap) : Bool :=
  decide (3 ≤ (commonBooks m1 m2).card) &&
  decide (pearsonVar1Q m1 m2 * pearsonVar2Q m1 m2 ≠ 0) &&
  decide (0 < pearsonNumQ m1 m2) &&
  decide (9 * (pearsonVar1Q m1 m2 * pearsonVar2Q m1 m2) < 100 * pearsonNumQ m1 m2 ^ 2)

/-- Exact-rational comparator for sorting retained users by similarity
descending (app.py line 247): for users `a`, `b` that both passed the
threshold (so numerators and variance products are positive),
`sim(u,b) ≤ sim(u,a)` iff `num_b^2 * v_a ≤ num_a^2 * v_b`. -/
def simDescLe (s : Store) (u : Nat) (a b : Nat) : Bool :=
  decide (pearsonNumQ (ratingMapOf s u) (ratingMapOf s b) ^ 2 *
            (pearsonVar1Q (ratingMapOf s u) (ratingMapOf s a) *
             pearsonVar2Q (ratingMapOf s u) (ratingMapOf s a))
          ≤ pearsonNumQ (ratingMapOf s u) (ratingMapOf s a) ^ 2 *
            (pearsonVar1Q (ratingMapOf s u) (ratingMapOf s b) *
             pearsonVar2Q (ratingMapOf s u) (ratingMapOf s b)))

/-- The similarity neighbourhood (app.py lines 238-248): all other users whose
similarity with `u` exceeds 0.3, sorted by similarity descending, top 5. -/
def similarUserIds (s : Store) (u : Nat) : List Nat :=
  let all_users := s.users.filter (fun v => v ≠ u)
  let retained := all_users.filter
    (fun v => similarity_gt_threshold (ratingMapOf s u) (ratingMapOf s v))
  (sortBy (simDescLe s u) retained).take 5

/-- The scores the users in `ids` gave to book `b` (the joined, filtered rows
of the collaborative query, app.py lines 251-256). -/
def bookNeighborScores (s : Store) (ids : List Nat) (b : Book) : List ℤ :=
  ((s.ratings.filter (fun r => r.book_id = b.id ∧ r.user_id ∈ ids)).map Rating.score)

/-- Average of a list of integer scores as an exact rational. -/
def avgScore (l : List ℤ) : ℚ := (l.sum : ℚ) / (l.length : ℚ)

/-- Collaborative candidates (app.py lines 250-258): books rated by some
neighbourhood user and not by `u`, ordered by the neighbourhood's average
score descending, capped at 5. -/
def collabRecs (s : Store) (u : Nat) : List Book :=
  if similarUserIds s u = [] then []
  else
    (sortBy (fun a b => decide (avgScore (bookNeighborScores s (similarUserIds s u) b)
                                 ≤ avgScore (bookNeighborScores s (similarUserIds s u) a)))
        (s.books.filter (fun b =>
          decide (bookNeighborScores s (similarUserIds s u) b ≠ []) &&
          decide (b.id ∉ userRatedBooks s u)))).take 5

/-- The scores any user gave to book `b` (the joined rows of the fallback
query, app.py lines 265-267). -/
def bookAllScores (s : Store) (b : Book) : List ℤ :=
  ((s.ratings.filter (fun r => r.book_id = b.id)).map Rating.score)

/-- The popularity fallback (app.py lines 265-268): books having at least one
rating, ordered by global average score descending, capped at 5. -/
def topRatedBooks (s : Store) : List Book :=
  (sortBy (fun a b => decide (avgScore (bookAllScores s b)
                               ≤ avgScore (bookAllScores s a)))
      (s.books.filter (fun b => decide (bookAllScores s b ≠ [])))).take 5

/-- Tuples `(b.id, b.title, b.author, b.genre)` that the endpoint
deduplicates and serialises (app.py lines 261, 268). -/
def recTuple (b : Book) : Nat × String × String × String :=
  (b.id, b.title, b.author, b.genre)

/-- Failure surfaced to the caller. -/
inductive ApiError where
  | notFound
deriving DecidableEq, Repr

/-- The endpoint `recommend_books(user_id)` (app.py lines 218-277): `get_or_404` on the
user, content-based and collaborative candidates, deduplicating set-merge,
and the popularity fallback when the merge is empty. -/
def recommend_books (s : Store) (u : Nat) :
    Except ApiError (Finset (Nat × String × String × String)) :=
  if u ∉ s.users then .error .notFound
  else if ((contentRecs s u ++ collabRecs s u).map recTuple).toFinset = ∅ then
    .ok ((topRatedBooks s).map recTuple).toFinset
  else .ok ((contentRecs s u ++ collabRecs s u).map recTuple).toFinset

/-! ### Basic facts about the Pearson computation -/

theorem pearson_of_card_lt (m1 m2 : RatingMap)
    (h : (commonBooks m1 m2).card < 3) : pearson m1 m2 = 0 := by
  unfold pearson
  rw [if_pos h]

theorem pearson_of_den_ne (m1 m2 : RatingMap)
    (h3 : ¬ (commonBooks m1 m2).card < 3) (hd : pearsonDen m1 m2 ≠ 0) :
    pearson m1 m2 = ((pearsonNumQ m1 m2 : ℚ) : ℝ) / pearsonDen m1 m2 := by
  unfold pearson
  rw [if_neg h3, if_pos hd]

theorem pearson_of_den_eq (m1 m2 : RatingMap)
    (h3 : ¬ (commonBooks m1 m2).card < 3) (hd : pearsonDen m1 m2 = 0) :
    pearson m1 m2 = 0 := by
  unfold pearson
  rw [if_neg h3, if_neg (not_not_intro hd)]

theorem commonBooks_comm (m1 m2 : RatingMap) :
    commonBooks m1 m2 = commonBooks m2 m1 := Finset.inter_comm _ _

theorem sum1Z_swap (m1 m2 : RatingMap) : sum1Z m1 m2 = sum2Z m2 m1 := by
  unfold sum1Z sum2Z
  rw [commonBooks_comm]

theorem sumSq1Z_swap (m1 m2 : RatingMap) : sumSq1Z m1 m2 = sumSq2Z m2 m1 := by
  unfold sumSq1Z sumSq2Z
  rw [commonBooks_comm]

theorem pSumZ_comm (m1 m2 : RatingMap) : pSumZ m1 m2 = pSumZ m2 m1 := by
  unfold pSumZ
  rw [commonBooks_comm]
  exact Finset.sum_congr rfl (fun b _ => mul_comm _ _)

theorem pearsonNumQ_comm (m1 m2 : RatingMap) :
    pearsonNumQ m1 m2 = pearsonNumQ m2 m1 := by
  unfold pearsonNumQ
  rw [pSumZ_comm, sum1Z_swap, commonBooks_comm, ← sum1Z_swap m2 m1]
  ring

theorem pearsonVar1Q_swap (m1 m2 : RatingMap) :
    pearsonVar1Q m1 m2 = pearsonVar2Q m2 m1 := by
  unfold pearsonVar1Q pearsonVar2Q
  rw [sumSq1Z_swap, sum1Z_swap, commonBooks_comm]

theorem pearsonDen_comm (m1 m2 : RatingMap) :
    pearsonDen m1 m2 = pearsonDen m2 m1 := by
  unfold pearsonDen
  rw [pearsonVar1Q_swap, ← pearsonVar1Q_swap m2 m1, mul_comm]

theorem pearson_comm (m1 m2 : RatingMap) : pearson m1 m2 = pearson m2 m1 := by
  unfold pearson
  rw [commonBooks_comm, pearsonDen_comm, pearsonNumQ_comm]

/-! ### Claims C2, C7, C9, C4 -/

/-- C2: for every pair of rating maps with fewer than 3 common book ids,
`calculate_similarity` returns exactly 0 (the neutral value; no error path
exists in the computation). -/
theorem c2_minimum_support (m1 m2 : RatingMap)
    (h : (commonBooks m1 m2).card < 3) : pearson m1 m2 = 0 :=
  pearson_of_card_lt m1 m2 h

theorem c2_minimum_support_witness :
    (commonBooks ⟨{1, 2}, fun _ => 5⟩ ⟨{2, 3}, fun _ => 4⟩).card < 3 ∧
    pearson ⟨{1, 2}, fun _ => 5⟩ ⟨{2, 3}, fun _ => 4⟩ = 0 :=
  ⟨by decide, c2_minimum_support _ _ (by decide)⟩

/-- C7: with at least 3 common books, whenever the Pearson denominator
`sqrt((sumSq1 - sum1^2/n) * (sumSq2 - sum2^2/n))` is zero the similarity is
0; the division is guarded by `den != 0`, so it is never executed with a
zero denominator. -/
theorem c7_zero_denominator_guard (m1 m2 : RatingMap)
    (h3 : 3 ≤ (commonBooks m1 m2).card) (hden : pearsonDen m1 m2 = 0) :
    pearson m1 m2 = 0 :=
  pearson_of_den_eq m1 m2 (by omega) hden

/-- C9: similarity is symmetric in its two users, though computed per
ordered pair. -/
theorem c9_similarity_symmetric (s : Store) (a b : Nat) :
    calculate_similarity s a b = calculate_similarity s b a :=
  pearson_comm _ _

/-- C4: recommending for a user id absent from the store fails with
`NotFound` (the `get_or_404` on app.py line 223) and produces no partial
result. -/
theorem c4_unknown_user_not_found (s : Store) (u : Nat) (h : u ∉ s.users) :
    recommend_books s u = Except.error ApiError.notFound := by
  unfold recommend_books
  rw [if_pos h]

theorem c4_unknown_user_not_found_witness :
    42 ∉ (Store.mk [⟨1, "t", "a", "g"⟩] [1] []).users ∧
    recommend_books (Store.mk [⟨1, "t", "a", "g"⟩] [1] []) 42 =
      Except.error ApiError.notFound :=
  ⟨by decide, c4_unknown_user_not_found _ _ (by decide)⟩

/-- Rating map used in the C7 witness: three books all scored 5. -/
def constMap5 : RatingMap := ⟨{1, 2, 3}, fun _ => 5⟩

/-- Rating map used in the C7 witness: scores 1, 2, 3 on books 1, 2, 3. -/
def rampMap : RatingMap := ⟨{1, 2, 3}, fun b => (b : ℤ)⟩

theorem c7_zero_denominator_guard_witness :
    3 ≤ (commonBooks constMap5 rampMap).card ∧
    pearsonDen constMap5 rampMap = 0 ∧ pearson constMap5 rampMap = 0 := by
  have hv : pearsonVar1Q constMap5 rampMap = 0 := by
    have e1 : sumSq1Z constMap5 rampMap = 75 := by decide
    have e2 : sum1Z constMap5 rampMap = 15 := by decide
    have e3 : (commonBooks constMap5 rampMap).card = 3 := by decide
    unfold pearsonVar1Q
    rw [e1, e2, e3]
    norm_num
  have hden : pearsonDen constMap5 rampMap = 0 := by
    unfold pearsonDen
    rw [hv, zero_mul, Rat.cast_zero, Real.sqrt_zero]
  exact ⟨by decide, hden, c7_zero_denominator_guard constMap5 rampMap (by decide) hden⟩

/-! ### Boundedness of the Pearson value (Cauchy-Schwarz) -/

theorem sum_centered_mul (c : Finset Nat) (x y : Nat → ℝ) (hc : 0 < c.card) :
    ∑ b ∈ c, (x b - (∑ i ∈ c, x i) / c.card) * (y b - (∑ i ∈ c, y i) / c.card)
      = (∑ b ∈ c, x b * y b) - (∑ i ∈ c, x i) * (∑ i ∈ c, y i) / c.card := by
  have hn : ((c.card : ℝ)) ≠ 0 := by
    exact_mod_cast Nat.pos_iff_ne_zero.mp hc
  have h1 : ∀ b ∈ c, (x b - (∑ i ∈ c, x i) / c.card) * (y b - (∑ i ∈ c, y i) / c.card)
      = x b * y b - ((∑ i ∈ c, x i) / c.card) * y b
        - ((∑ i ∈ c, y i) / c.card) * x b
        + ((∑ i ∈ c, x i) / c.card) * ((∑ i ∈ c, y i) / c.card) := by
    intro b _
    ring
  rw [Finset.sum_congr rfl h1]
  rw [Finset.sum_add_distrib, Finset.sum_sub_distrib, Finset.sum_sub_distrib,
    ← Finset.mul_sum, ← Finset.mul_sum, Finset.sum_const, nsmul_eq_mul]
  field_simp
  ring

theorem sum1Z_cast (m1 m2 : RatingMap) :
    ((sum1Z m1 m2 : ℤ) : ℝ) = ∑ b ∈ commonBooks m1 m2, ((m1.score b : ℤ) : ℝ) := by
  unfold sum1Z
  push_cast
  rfl

theorem sum2Z_cast (m1 m2 : RatingMap) :
    ((sum2Z m1 m2 : ℤ) : ℝ) = ∑ b ∈ commonBooks m1 m2, ((m2.score b : ℤ) : ℝ) := by
  unfold sum2Z
  push_cast
  rfl

theorem pSumZ_cast (m1 m2 : RatingMap) :
    ((pSumZ m1 m2 : ℤ) : ℝ)
      = ∑ b ∈ commonBooks m1 m2, ((m1.score b : ℤ) : ℝ) * ((m2.score b : ℤ) : ℝ) := by
  unfold pSumZ
  push_cast
  rfl

theorem sumSq1Z_cast (m1 m2 : RatingMap) :
    ((sumSq1Z m1 m2 : ℤ) : ℝ) = ∑ b ∈ commonBooks m1 m2, ((m1.score b : ℤ) : ℝ) ^ 2 := by
  unfold sumSq1Z
  push_cast
  rfl

theorem sumSq2Z_cast (m1 m2 : RatingMap) :
    ((sumSq2Z m1 m2 : ℤ) : ℝ) = ∑ b ∈ commonBooks m1 m2, ((m2.score b : ℤ) : ℝ) ^ 2 := by
  unfold sumSq2Z
  push_cast
  rfl

/-- The numerator, recentred: `num = Σ (x - mean x)(y - mean y)`. -/
theorem pearsonNumQ_centered (m1 m2 : RatingMap)
    (h : 0 < (commonBooks m1 m2).card) :
    ((pearsonNumQ m1 m2 : ℚ) : ℝ)
      = ∑ b ∈ commonBooks m1 m2,
          (((m1.score b : ℤ) : ℝ)
              - (∑ i ∈ commonBooks m1 m2, ((m1.score i : ℤ) : ℝ)) / (commonBooks m1 m2).card)
          * (((m2.score b : ℤ) : ℝ)
              - (∑ i ∈ commonBooks m1 m2, ((m2.score i : ℤ) : ℝ)) / (commonBooks m1 m2).card) := by
  rw [sum_centered_mul _ _ _ h]
  unfold pearsonNumQ
  push_cast
  rw [sum1Z_cast, sum2Z_cast, pSumZ_cast] at *

/-- The first variance factor, recentred: a sum of squares. -/
theorem pearsonVar1Q_centered (m1 m2 : RatingMap)
    (h : 0 < (commonBooks m1 m2).card) :
    ((pearsonVar1Q m1 m2 : ℚ) : ℝ)
      = ∑ b ∈ commonBooks m1 m2,
          (((m1.score b : ℤ) : ℝ)
              - (∑ i ∈ commonBooks m1 m2, ((m1.score i : ℤ) : ℝ)) / (commonBooks m1 m2).card) ^ 2 := by
  have h2 : ∀ b ∈ commonBooks m1 m2,
      (((m1.score b : ℤ) : ℝ)
          - (∑ i ∈ commonBooks m1 m2, ((m1.score i : ℤ) : ℝ)) / (commonBooks m1 m2).card) ^ 2
      = (((m1.score b : ℤ) : ℝ)
          - (∑ i ∈ commonBooks m1 m2, ((m1.score i : ℤ) : ℝ)) / (commonBooks m1 m2).card)
        * (((m1.score b : ℤ) : ℝ)
          - (∑ i ∈ commonBooks m1 m2, ((m1.score i : ℤ) : ℝ)) / (commonBooks m1 m2).card) := by
    intro b _
    ring
  rw [Finset.sum_congr rfl h2, sum_centered_mul _ _ _ h]
  unfold pearsonVar1Q
  push_cast
  rw [sum1Z_cast, sumSq1Z_cast] at *
  push_cast
  rw [Finset.sum_congr rfl
    (fun b _ => pow_two (((m1.score b : ℤ) : ℝ)) :
      ∀ b ∈ commonBooks m1 m2,
        ((m1.score b : ℤ) : ℝ) ^ 2 = ((m1.score b : ℤ) : ℝ) * ((m1.score b : ℤ) : ℝ))]
  ring

/-- The second variance factor, recentred: a sum of squares. -/
theorem pearsonVar2Q_centered (m1 m2 : RatingMap)
    (h : 0 < (commonBooks m1 m2).card) :
    ((pearsonVar2Q m1 m2 : ℚ) : ℝ)
      = ∑ b ∈ commonBooks m1 m2,
          (((m2.score b : ℤ) : ℝ)
              - (∑ i ∈ commonBooks m1 m2, ((m2.score i : ℤ) : ℝ)) / (commonBooks m1 m2).card) ^ 2 := by
  have h2 : ∀ b ∈ commonBooks m1 m2,
      (((m2.score b : ℤ) : ℝ)
          - (∑ i ∈ commonBooks m1 m2, ((m2.score i : ℤ) : ℝ)) / (commonBooks m1 m2).card) ^ 2
      = (((m2.score b : ℤ) : ℝ)
          - (∑ i ∈ commonBooks m1 m2, ((m2.score i : ℤ) : ℝ)) / (commonBooks m1 m2).card)
        * (((m2.score b : ℤ) : ℝ)
          - (∑ i ∈ commonBooks m1 m2, ((m2.score i : ℤ) : ℝ)) / (commonBooks m1 m2).card) := by
    intro b _
    ring
  rw [Finset.sum_congr rfl h2, sum_centered_mul _ _ _ h]
  unfold pearsonVar2Q
  push_cast
  rw [sum2Z_cast, sumSq2Z_cast] at *
  push_cast
  rw [Finset.sum_congr rfl
    (fun b _ => pow_two (((m2.score b : ℤ) : ℝ)) :
      ∀ b ∈ commonBooks m1 m2,
        ((m2.score b : ℤ) : ℝ) ^ 2 = ((m2.score b : ℤ) : ℝ) * ((m2.score b : ℤ) : ℝ))]
  ring

theorem pearsonVar1Q_nonneg (m1 m2 : RatingMap) (h : 0 < (commonBooks m1 m2).card) :
    0 ≤ ((pearsonVar1Q m1 m2 : ℚ) : ℝ) := by
  rw [pearsonVar1Q_centered m1 m2 h]
  exact Finset.sum_nonneg (fun b _ => sq_nonneg _)

theorem pearsonVar2Q_nonneg (m1 m2 : RatingMap) (h : 0 < (commonBooks m1 m2).card) :
    0 ≤ ((pearsonVar2Q m1 m2 : ℚ) : ℝ) := by
  rw [pearsonVar2Q_centered m1 m2 h]
  exact Finset.sum_nonneg (fun b _ => sq_nonneg _)

/-- Cauchy-Schwarz for the Pearson statistics: `num^2 ≤ var1 * var2`. -/
theorem pearson_num_sq_le (m1 m2 : RatingMap) (h : 0 < (commonBooks m1 m2).card) :
    ((pearsonNumQ m1 m2 : ℚ) : ℝ) ^ 2
      ≤ ((pearsonVar1Q m1 m2 : ℚ) : ℝ) * ((pearsonVar2Q m1 m2 : ℚ) : ℝ) := by
  rw [pearsonNumQ_centered m1 m2 h, pearsonVar1Q_centered m1 m2 h,
    pearsonVar2Q_centered m1 m2 h]
  exact Finset.sum_mul_sq_le_sq_mul_sq _ _ _

theorem pearsonDen_sq (m1 m2 : RatingMap) (h : 0 < (commonBooks m1 m2).card) :
    pearsonDen m1 m2 ^ 2
      = ((pearsonVar1Q m1 m2 : ℚ) : ℝ) * ((pearsonVar2Q m1 m2 : ℚ) : ℝ) := by
  unfold pearsonDen
  rw [Real.sq_sqrt]
  · push_cast
    ring
  · push_cast
    exact mul_nonneg (pearsonVar1Q_nonneg m1 m2 h) (pearsonVar2Q_nonneg m1 m2 h)

/-- The Pearson value always lies in `[-1, 1]`. -/
theorem pearson_bounds (m1 m2 : RatingMap) :
    -1 ≤ pearson m1 m2 ∧ pearson m1 m2 ≤ 1 := by
  by_cases h3 : (commonBooks m1 m2).card < 3
  · rw [pearson_of_card_lt _ _ h3]
    norm_num
  · by_cases hd : pearsonDen m1 m2 = 0
    · rw [pearson_of_den_eq _ _ h3 hd]
      norm_num
    · rw [pearson_of_den_ne _ _ h3 hd]
      have hcard : 0 < (commonBooks m1 m2).card := by omega
      have hdnn : 0 ≤ pearsonDen m1 m2 := Real.sqrt_nonneg _
      have hdpos : 0 < pearsonDen m1 m2 := lt_of_le_of_ne hdnn (Ne.symm hd)
      have habs : |((pearsonNumQ m1 m2 : ℚ) : ℝ)| ≤ pearsonDen m1 m2 := by
        have hsq : ((pearsonNumQ m1 m2 : ℚ) : ℝ) ^ 2 ≤ pearsonDen m1 m2 ^ 2 := by
          rw [pearsonDen_sq m1 m2 hcard]
          exact pearson_num_sq_le m1 m2 hcard
        calc |((pearsonNumQ m1 m2 : ℚ) : ℝ)|
            = Real.sqrt (((pearsonNumQ m1 m2 : ℚ) : ℝ) ^ 2) := (Real.sqrt_sq_eq_abs _).symm
          _ ≤ Real.sqrt (pearsonDen m1 m2 ^ 2) := Real.sqrt_le_sqrt hsq
          _ = pearsonDen m1 m2 := Real.sqrt_sq hdnn
      have hq : |((pearsonNumQ m1 m2 : ℚ) : ℝ) / pearsonDen m1 m2| ≤ 1 := by
        rw [abs_div, abs_of_pos hdpos]
        exact (div_le_one hdpos).mpr habs
      exact abs_le.mp hq

/-- C8: for rating maps whose scores all lie in `[1, 5]`, the similarity lies
in `[-1, 1]`.  (The bound in fact holds for arbitrary integer scores.) -/
theorem c8_similarity_bounded (m1 m2 : RatingMap)
    (h1 : ∀ b ∈ m1.books, 1 ≤ m1.score b ∧ m1.score b ≤ 5)
    (h2 : ∀ b ∈ m2.books, 1 ≤ m2.score b ∧ m2.score b ≤ 5) :
    -1 ≤ pearson m1 m2 ∧ pearson m1 m2 ≤ 1 :=
  pearson_bounds m1 m2

theorem c8_similarity_bounded_witness :
    (∀ b ∈ ({1, 2, 3} : Finset Nat), 1 ≤ ((fun b => (b : ℤ)) b) ∧ ((fun b => (b : ℤ)) b) ≤ 5) ∧
    (∀ b ∈ ({1, 2, 3} : Finset Nat), 1 ≤ ((fun _ => (5 : ℤ)) b) ∧ ((fun _ => (5 : ℤ)) b) ≤ 5) ∧
    (-1 ≤ pearson rampMap constMap5 ∧ pearson rampMap constMap5 ≤ 1) :=
  ⟨by decide, by decide, c8_similarity_bounded rampMap constMap5 (by decide) (by decide)⟩

/-! ### The threshold test agrees with the real-valued comparison -/

/-- The computable threshold test used inside `similarUserIds` decides
exactly the source comparison `calculate_similarity(...) > 0.3`
(app.py line 243). -/
theorem similarity_gt_threshold_iff (m1 m2 : RatingMap) :
    similarity_gt_threshold m1 m2 = true ↔ (3 : ℝ) / 10 < pearson m1 m2 := by
  unfold similarity_gt_threshold
  by_cases h3 : (commonBooks m1 m2).card < 3
  · rw [pearson_of_card_lt _ _ h3]
    simp only [Bool.and_eq_true, decide_eq_true_eq]
    constructor
    · rintro ⟨⟨⟨hcard, -⟩, -⟩, -⟩
      omega
    · intro hlt
      norm_num at hlt
  · have hcard : 0 < (commonBooks m1 m2).card := by omega
    by_cases hv : pearsonVar1Q m1 m2 * pearsonVar2Q m1 m2 = 0
    · have hden : pearsonDen m1 m2 = 0 := by
        unfold pearsonDen
        rw [hv, Rat.cast_zero, Real.sqrt_zero]
      rw [pearson_of_den_eq _ _ h3 hden]
      simp only [Bool.and_eq_true, decide_eq_true_eq]
      constructor
      · rintro ⟨⟨⟨-, hv2⟩, -⟩, -⟩
        exact absurd hv hv2
      · intro hlt
        norm_num at hlt
    · have hVnn : (0 : ℝ) ≤ ((pearsonVar1Q m1 m2 * pearsonVar2Q m1 m2 : ℚ) : ℝ) := by
        push_cast
        exact mul_nonneg (pearsonVar1Q_nonneg _ _ hcard) (pearsonVar2Q_nonneg _ _ hcard)
      have hVpos : (0 : ℝ) < ((pearsonVar1Q m1 m2 * pearsonVar2Q m1 m2 : ℚ) : ℝ) := by
        rcases lt_or_eq_of_le hVnn with hlt | heq
        · exact hlt
        · exact absurd (by exact_mod_cast heq.symm) hv
      have hdpos : 0 < pearsonDen m1 m2 := by
        unfold pearsonDen
        exact Real.sqrt_pos.mpr hVpos
      have hden_sq : pearsonDen m1 m2 ^ 2
          = ((pearsonVar1Q m1 m2 * pearsonVar2Q m1 m2 : ℚ) : ℝ) := by
        unfold pearsonDen
        exact Real.sq_sqrt hVnn
      rw [pearson_of_den_ne _ _ h3 (ne_of_gt hdpos)]
      simp only [Bool.and_eq_true, decide_eq_true_eq]
      rw [div_lt_div_iff (by norm_num) hdpos]
      constructor
      · rintro ⟨⟨⟨-, -⟩, hnum⟩, hineq⟩
        have hnumR : (0 : ℝ) < ((pearsonNumQ m1 m2 : ℚ) : ℝ) := by
          exact_mod_cast hnum
        have hineqR : 9 * ((pearsonVar1Q m1 m2 * pearsonVar2Q m1 m2 : ℚ) : ℝ)
            < 100 * ((pearsonNumQ m1 m2 : ℚ) : ℝ) ^ 2 := by
          exact_mod_cast hineq
        nlinarith [hden_sq, hdpos, hnumR, hineqR]
      · intro hlt
        have hnumR : (0 : ℝ) < ((pearsonNumQ m1 m2 : ℚ) : ℝ) := by
          nlinarith [hdpos]
        have hineqR : 9 * ((pearsonVar1Q m1 m2 * pearsonVar2Q m1 m2 : ℚ) : ℝ)
            < 100 * ((pearsonNumQ m1 m2 : ℚ) : ℝ) ^ 2 := by
          nlinarith [hdpos, hden_sq]
        refine ⟨⟨⟨by omega, hv⟩, by exact_mod_cast hnumR⟩, by exact_mod_cast hineqR⟩

/-! ### Genre preference claims (C5, C6) -/

/-- Store for the C5 scenario from the spec: genre "A" has average 5 with
count 1, genre "B" has average 4 with count 5. -/
def c5Store : Store :=
  { books := [⟨1, "t1", "a", "A"⟩, ⟨2, "t2", "a", "B"⟩, ⟨3, "t3", "a", "B"⟩,
              ⟨4, "t4", "a", "B"⟩, ⟨5, "t5", "a", "B"⟩, ⟨6, "t6", "a", "B"⟩]
    users := [1]
    ratings := [⟨1, 1, 5⟩, ⟨1, 2, 4⟩, ⟨1, 3, 4⟩, ⟨1, 4, 4⟩, ⟨1, 5, 4⟩, ⟨1, 6, 4⟩] }

/-- The grouped row for genre "A" in `c5Store` (average written as the
unevaluated quotient the aggregation produces). -/
def gsA : GenreScore := ⟨"A", ((5 : ℤ) : ℚ) / ((1 : ℕ) : ℚ), 1⟩

/-- The grouped row for genre "B" in `c5Store`. -/
def gsB : GenreScore := ⟨"B", ((20 : ℤ) : ℚ) / ((5 : ℕ) : ℚ), 5⟩

/-- C5: `get_user_preferred_genres` ranks the user's genres by
`avg_rating * min(count, 5)` descending (the sorted list is a permutation of
the grouped rows, pairwise ordered by that key) and returns the first `topN`
genre names; on the spec's concrete scenario (genre A: avg 5, count 1;
genre B: avg 4, count 5) genre B ranks above genre A. -/
theorem c5_genre_ranking (s : Store) (u : Nat) (n : ℕ) :
    List.Pairwise (fun a b : GenreScore => genreSortKey b ≤ genreSortKey a)
      (preferredSorted s u)
    ∧ (preferredSorted s u).Perm (genre_scores s u)
    ∧ get_user_preferred_genres s u n
        = (if genre_scores s u = [] then none
           else some (((preferredSorted s u).take n).map GenreScore.genre))
    ∧ get_user_preferred_genres c5Store 1 2 = some ["B", "A"] := by
  refine ⟨?_, sortBy_perm _ _, rfl, ?_⟩
  · have h := sortBy_sorted
      (fun a b : GenreScore => decide (genreSortKey b ≤ genreSortKey a))
      (fun a b c hab hbc => by
        simp only [decide_eq_true_eq] at *
        exact le_trans hbc hab)
      (fun a b => by
        simp only [decide_eq_true_eq]
        exact le_total _ _)
      (genre_scores s u)
    exact h.imp (fun hab => of_decide_eq_true hab)
  · have hgs : genre_scores c5Store 1 = [gsA, gsB] := rfl
    have hcmp : decide (genreSortKey gsB ≤ genreSortKey gsA) = false := by
      simp only [decide_eq_false_iff_not]
      norm_num [genreSortKey, gsA, gsB]
    have hsort : preferredSorted c5Store 1 = [gsB, gsA] := by
      unfold preferredSorted
      rw [hgs]
      simp only [sortBy, List.foldr, insertIn, hcmp]
      rfl
    unfold get_user_preferred_genres
    rw [hgs, hsort]
    simp [gsA, gsB]

theorem genre_scores_eq_nil_of_no_ratings (s : Store) (u : Nat)
    (h : ∀ r ∈ s.ratings, r.user_id ≠ u) : genre_scores s u = [] := by
  unfold genre_scores userGenreScorePairs
  rw [List.filter_eq_nil_iff.mpr (by
    intro r hr
    simpa using h r hr)]
  rfl

/-- C6 (amended): on a user with zero ratings, `get_user_preferred_genres`
returns the absent value `None` (not an empty list); callers treat it as
"no content-based signal", not an error. -/
theorem c6_no_ratings_returns_none (s : Store) (u : Nat) (n : ℕ)
    (h : ∀ r ∈ s.ratings, r.user_id ≠ u) :
    get_user_preferred_genres s u n = none := by
  unfold get_user_preferred_genres
  rw [if_pos (genre_scores_eq_nil_of_no_ratings s u h)]

/-- Store for the C6 counterexample: user 7 exists but has no ratings. -/
def c6Store : Store :=
  { books := [⟨1, "t", "a", "G"⟩], users := [1, 7], ratings := [⟨1, 1, 4⟩] }

/-- C6 counterexample: on a user with zero ratings the code returns Python
`None` (modelled `none`), which is not the empty sequence `some []` the claim
states. -/
theorem c6_counterexample :
    (∀ r ∈ c6Store.ratings, r.user_id ≠ 7) ∧
    get_user_preferred_genres c6Store 7 2 = none ∧
    get_user_preferred_genres c6Store 7 2 ≠ some [] := by
  refine ⟨by decide, by decide, by decide⟩

theorem c6_no_ratings_returns_none_witness :
    (∀ r ∈ c6Store.ratings, r.user_id ≠ 7) ∧
    get_user_preferred_genres c6Store 7 2 = none :=
  ⟨by decide, c6_no_ratings_returns_none c6Store 7 2 (by decide)⟩

/-! ### Claim C10: similarity with a missing user id -/

theorem ratingMapOf_books_empty (s : Store) (u : Nat)
    (h : ∀ r ∈ s.ratings, r.user_id ≠ u) : (ratingMapOf s u).books = ∅ := by
  unfold ratingMapOf userRatingsList
  rw [List.filter_eq_nil_iff.mpr (by
    intro r hr
    simpa using h r hr)]
  rfl

/-- C10 (amended): `calculate_similarity` performs no existence check; a user
id with no ratings rows (in particular an id absent from the store) yields an
empty rating map, hence fewer than 3 common books, and the function returns
the neutral value 0 instead of failing with `NotFound`. -/
theorem c10_missing_user_returns_zero (s : Store) (u v : Nat)
    (h : ∀ r ∈ s.ratings, r.user_id ≠ v) :
    calculate_similarity s u v = 0 := by
  apply pearson_of_card_lt
  unfold commonBooks
  rw [ratingMapOf_books_empty s v h, Finset.inter_empty]
  decide

/-- Store for the C10 counterexample: user id 99 does not exist. -/
def c10Store : Store :=
  { books := [⟨1, "t", "a", "G"⟩], users := [1], ratings := [⟨1, 1, 5⟩] }

/-- C10 counterexample: `calculate_similarity` on the nonexistent user id 99
returns the value 0 — the operation succeeds with a neutral result instead of
failing with `NotFound` as the claim states (the code has no error path at
all in `calculate_similarity`). -/
theorem c10_counterexample :
    99 ∉ c10Store.users ∧ calculate_similarity c10Store 1 99 = 0 :=
  ⟨by decide, pearson_of_card_lt _ _ (by decide)⟩

theorem c10_missing_user_returns_zero_witness :
    (∀ r ∈ c10Store.ratings, r.user_id ≠ 99) ∧
    calculate_similarity c10Store 1 99 = 0 :=
  ⟨by decide, c10_missing_user_returns_zero c10Store 1 99 (by decide)⟩

/-! ### Claims C1 and C3: the recommendation pipeline -/

theorem contentRecs_not_rated (s : Store) (u : Nat) (b : Book)
    (hb : b ∈ contentRecs s u) : b.id ∉ userRatedBooks s u := by
  unfold contentRecs at hb
  cases hpg : get_user_preferred_genres s u 2 with
  | none =>
    rw [hpg] at hb
    exact absurd hb (List.not_mem_nil b)
  | some pg =>
    rw [hpg] at hb
    cases pg with
    | nil => exact absurd hb (List.not_mem_nil b)
    | cons g gs =>
      have hb2 := List.take_subset 5 _ hb
      have hf := (List.mem_filter.mp hb2).2
      simp only [Bool.and_eq_true, decide_eq_true_eq] at hf
      exact hf.2

theorem collabRecs_not_rated (s : Store) (u : Nat) (b : Book)
    (hb : b ∈ collabRecs s u) : b.id ∉ userRatedBooks s u := by
  unfold collabRecs at hb
  by_cases hids : similarUserIds s u = []
  · rw [if_pos hids] at hb
    exact absurd hb (List.not_mem_nil b)
  · rw [if_neg hids] at hb
    have hb2 := List.take_subset 5 _ hb
    have hb3 := (sortBy_perm _ _).mem_iff.mp hb2
    have hf := (List.mem_filter.mp hb3).2
    simp only [Bool.and_eq_true, decide_eq_true_eq] at hf
    exact hf.2

/-- C1 (amended): whenever `recommend_books` succeeds without taking the
popularity fallback (the merged content/collaborative candidate set is
non-empty), no returned book id was rated by the target user.  The content
path and the collaborative path each exclude the user's rated books; the
fallback does not (see `c1_counterexample`). -/
theorem c1_personalized_recs_exclude_rated (s : Store) (u : Nat)
    (recs : Finset (Nat × String × String × String))
    (hok : recommend_books s u = Except.ok recs)
    (hne : ((contentRecs s u ++ collabRecs s u).map recTuple).toFinset ≠ ∅) :
    ∀ e ∈ recs, e.1 ∉ userRatedBooks s u := by
  unfold recommend_books at hok
  by_cases hu : u ∉ s.users
  · rw [if_pos hu] at hok
    exact absurd hok (by simp)
  · rw [if_neg hu, if_neg hne] at hok
    injection hok with hok
    subst hok
    intro e he
    rw [List.mem_toFinset] at he
    rcases List.mem_map.mp he with ⟨b, hb, rfl⟩
    rcases List.mem_append.mp hb with hb | hb
    · exact contentRecs_not_rated s u b hb
    · exact collabRecs_not_rated s u b hb

/-- Store for the C1 counterexample: the single user rated the only book in
the catalog, so both personalized candidate sets are empty and the fallback
returns the very book the user already rated. -/
def c1Store : Store :=
  { books := [⟨1, "t", "a", "X"⟩], users := [1], ratings := [⟨1, 1, 5⟩] }

/-- C1 counterexample: `recommend(1)` on `c1Store` succeeds and returns book
1, which user 1 has already rated — on the popularity-fallback path the claim
"recommend never includes a book the target user has already rated" fails. -/
theorem c1_counterexample :
    recommend_books c1Store 1 = Except.ok {(1, "t", "a", "X")} ∧
    (1 : Nat) ∈ userRatedBooks c1Store 1 :=
  ⟨by decide, by decide⟩

/-- Store for the C1 witness: book 2 shares user 1's preferred genre and is
unrated, so the content path is taken. -/
def c1wStore : Store :=
  { books := [⟨1, "t", "a", "X"⟩, ⟨2, "t2", "a2", "X"⟩], users := [1],
    ratings := [⟨1, 1, 5⟩] }

theorem c1_personalized_recs_exclude_rated_witness :
    recommend_books c1wStore 1 = Except.ok {(2, "t2", "a2", "X")} ∧
    ((contentRecs c1wStore 1 ++ collabRecs c1wStore 1).map recTuple).toFinset ≠ ∅ ∧
    (2 : Nat) ∉ userRatedBooks c1wStore 1 :=
  ⟨by decide, by decide,
    c1_personalized_recs_exclude_rated c1wStore 1 {(2, "t2", "a2", "X")}
      (by decide) (by decide) (2, "t2", "a2", "X") (by decide)⟩

/-- C3: for an existing user whose content-based and collaborative candidate
sets are both empty, `recommend_books` returns the globally top-rated books;
under the schema's integrity constraints this is non-empty whenever at least
one rating exists, and when the rating corpus is empty the result is the
empty set, returned without error. -/
theorem c3_empty_candidates_fallback (s : Store) (u : Nat) (hwf : StoreWF s)
    (hu : u ∈ s.users) (hc : contentRecs s u = []) (hcol : collabRecs s u = []) :
    recommend_books s u = Except.ok ((topRatedBooks s).map recTuple).toFinset
    ∧ (s.ratings ≠ [] → ((topRatedBooks s).map recTuple).toFinset ≠ ∅)
    ∧ (s.ratings = [] →
        recommend_books s u
          = Except.ok (∅ : Finset (Nat × String × String × String))) := by
  have hempty : ((contentRecs s u ++ collabRecs s u).map recTuple).toFinset = ∅ := by
    rw [hc, hcol]
    rfl
  have h1 : recommend_books s u = .ok ((topRatedBooks s).map recTuple).toFinset := by
    unfold recommend_books
    rw [if_neg (not_not_intro hu), if_pos hempty]
  refine ⟨h1, ?_, ?_⟩
  · intro hr
    cases hrat : s.ratings with
    | nil => exact absurd hrat hr
    | cons r rs =>
      obtain ⟨hfk, -, -⟩ := hwf
      have hrmem : r ∈ s.ratings := by
        rw [hrat]
        exact List.mem_cons_self r rs
      obtain ⟨-, b, hbmem, hbid⟩ := hfk r hrmem
      have hscore : r.score ∈ bookAllScores s b := by
        unfold bookAllScores
        exact List.mem_map_of_mem _ (List.mem_filter.mpr ⟨hrmem, by simp [hbid]⟩)
      have hfilt : b ∈ s.books.filter (fun b => decide (bookAllScores s b ≠ [])) := by
        rw [List.mem_filter]
        refine ⟨hbmem, ?_⟩
        simp only [decide_eq_true_eq]
        intro hnil
        rw [hnil] at hscore
        exact List.not_mem_nil _ hscore
      have htne : topRatedBooks s ≠ [] := by
        unfold topRatedBooks
        intro h0
        rcases List.take_eq_nil_iff.mp h0 with h5 | h0
        · exact absurd h5 (by norm_num)
        · rw [sortBy_eq_nil_iff] at h0
          rw [h0] at hfilt
          exact List.not_mem_nil _ hfilt
      intro hfin
      rw [List.toFinset_eq_empty_iff, List.map_eq_nil_iff] at hfin
      exact htne hfin
  · intro hrat
    have hall : ∀ b : Book, bookAllScores s b = [] := by
      intro b
      unfold bookAllScores
      rw [hrat]
      rfl
    have htop : topRatedBooks s = [] := by
      unfold topRatedBooks
      rw [List.filter_eq_nil_iff.mpr (by
        intro b hb
        simp [hall b])]
      rfl
    rw [h1, htop]
    rfl

/-- Store for the C3 witness: user 1 has no ratings; user 2 rated the only
book, so the fallback is non-empty. -/
def c3Store : Store :=
  { books := [⟨1, "t", "a", "G"⟩], users := [1, 2], ratings := [⟨2, 1, 4⟩] }

theorem c3_empty_candidates_fallback_witness :
    StoreWF c3Store ∧ (1 : Nat) ∈ c3Store.users ∧ contentRecs c3Store 1 = [] ∧
    collabRecs c3Store 1 = [] ∧
    recommend_books c3Store 1 = Except.ok ((topRatedBooks c3Store).map recTuple).toFinset ∧
    ((topRatedBooks c3Store).map recTuple).toFinset ≠ ∅ :=
  ⟨by decide, by decide, by decide, by decide,
    (c3_empty_candidates_fallback c3Store 1 (by decide) (by decide) (by decide)
      (by decide)).1,
    (c3_empty_candidates_fallback c3Store 1 (by decide) (by decide) (by decide)
      (by decide)).2.1 (by decide)⟩

end BookRec
